import Mathlib

/-!
Shallow embedding of `slackish.py`, a minimal Slack chat-bot command router.

The embedding models:
* the command registry (`Command.registry`, a Python dict from command name
  to a descriptor holding the handler, its argument names and its help text);
* the mention parser (`parse_direct_mention` / `parse_bot_commands`, built on
  the default pattern string `^<@(|[WU].+?)>(.*)` compiled by `re.search`);
* the command dispatcher (`command_to_fn_call`, built on `shlex.split` and
  `list_to_dict`);
* the per-event session orchestration (`handle`, including the outbound
  message queue and `flush`).

Python dicts are modelled as insertion-ordered association lists with unique
keys (`dictGet` / `dictSet`); Python exceptions are modelled by the `PyErr`
type threaded through results; a handler is modelled by the messages it
enqueues via `Slackish.send` together with the exception it raises, if any.
-/

set_option autoImplicit false

namespace Slackish

/-- Python exceptions that the modelled code can raise or catch. -/
inductive PyErr where
  | keyError
  | indexError
  | valueError
  | otherError
deriving DecidableEq, Repr

/-! ## Python dict model -/

/-- `d[k]` lookup on a Python dict modelled as an association list. -/
def dictGet {α : Type} : List (String × α) → String → Option α
  | [], _ => none
  | (k', v) :: rest, k => if k' = k then some v else dictGet rest k

/-- `d[k] = v` on a Python dict: overwrite in place or append at the end
(insertion order preserved, last write wins). -/
def dictSet {α : Type} : List (String × α) → String → α → List (String × α)
  | [], k, v => [(k, v)]
  | (k', v') :: rest, k, v =>
      if k' = k then (k, v) :: rest else (k', v') :: dictSet rest k v

/-! ## Python string helpers -/

/-- Characters removed by Python `str.strip()` (ASCII whitespace). -/
def isPySpace (c : Char) : Bool :=
  c = ' ' || c = '\t' || c = '\n' || c = '\r' || c = '\x0b' || c = '\x0c'

/-- Python `str.strip()`. -/
def pyStrip (s : String) : String :=
  String.mk (((s.data.dropWhile isPySpace).reverse.dropWhile isPySpace).reverse)

/-- Python `str.lower()` (ASCII model, which covers the command keys here). -/
def pyLower (s : String) : String :=
  String.mk (s.data.map Char.toLower)

/-! ## The mention pattern `^<@(|[WU].+?)>(.*)`

`re.search` with a pattern anchored by `^` matches only at the start of the
text.  The alternation `(|[WU].+?)` tries the empty branch first; `.+?` is
lazy and `.` does not match a newline; `(.*)` greedily takes the rest of the
line. -/

/-- `(.*)`: the longest non-newline prefix. -/
def dotStar (s : List Char) : List Char := s.takeWhile (fun c => c != '\n')

/-- `[WU].+?>` after its first character: the shortest non-empty run of
non-newline characters followed by `>`; returns the run and the suffix after
the `>`. -/
def lazyDotPlus : List Char → Option (List Char × List Char)
  | [] => none
  | c :: cs =>
    if c = '\n' then none
    else
      match cs with
      | [] => none
      | d :: ds =>
        if d = '>' then some ([c], ds)
        else
          match lazyDotPlus cs with
          | some (mid, tail) => some (c :: mid, tail)
          | none => none

/-- `re.search("^<@(|[WU].+?)>(.*)", s)` on the character list of `s`:
returns the two capture groups on a match. -/
def mentionMatchList : List Char → Option (List Char × List Char)
  | a :: b :: rest =>
    if a = '<' ∧ b = '@' then
      match rest with
      | [] => none
      | c :: cs =>
        if c = '>' then some ([], dotStar cs)
        else if c = 'W' ∨ c = 'U' then
          match lazyDotPlus cs with
          | some (mid, tail) => some (c :: mid, dotStar tail)
          | none => none
        else none
    else none
  | _ => none

/-- The compiled default `MENTION_REGEX`, as the function taking a text to
its two capture groups (or `none` when the pattern does not match). -/
def defaultMentionMatch (s : String) : Option (String × String) :=
  match mentionMatchList s.data with
  | some (g1, g2) => some (String.mk g1, String.mk g2)
  | none => none

/-! ## shlex.split (POSIX mode, whitespace_split, no comments) -/

/-- `shlex` token-separating whitespace. -/
def shlexWhitespace (c : Char) : Bool :=
  c = ' ' || c = '\t' || c = '\r' || c = '\n'

/-- States of the `shlex` POSIX lexer. -/
inductive ShState where
  | ws        -- between tokens
  | word      -- inside an unquoted word
  | squote    -- inside '...'
  | dquote    -- inside "..."
  | escWord   -- after \ outside quotes
  | escDquote -- after \ inside "..."
deriving DecidableEq, Repr

/-- One pass of `shlex.split` in POSIX mode with `whitespace_split`:
`tok` is the token built so far, `quoted` records whether the current token
saw a quote (so that an empty quoted token is still emitted), `acc` holds
the finished tokens in reverse.  Unclosed quotes and a trailing escape raise
`ValueError`. -/
def shlexRun : List Char → ShState → List Char → Bool → List (List Char) →
    Except PyErr (List (List Char))
  | [], .ws, _, _, acc => .ok acc.reverse
  | [], .word, tok, quoted, acc =>
      .ok (if tok ≠ [] ∨ quoted then (tok :: acc).reverse else acc.reverse)
  | [], .squote, _, _, _ => .error .valueError
  | [], .dquote, _, _, _ => .error .valueError
  | [], .escWord, _, _, _ => .error .valueError
  | [], .escDquote, _, _, _ => .error .valueError
  | c :: cs, .ws, tok, quoted, acc =>
      if shlexWhitespace c then shlexRun cs .ws [] false acc
      else if c = '\'' then shlexRun cs .squote tok quoted acc
      else if c = '"' then shlexRun cs .dquote tok quoted acc
      else if c = '\\' then shlexRun cs .escWord tok quoted acc
      else shlexRun cs .word [c] quoted acc
  | c :: cs, .word, tok, quoted, acc =>
      if shlexWhitespace c then
        shlexRun cs .ws [] false (if tok ≠ [] ∨ quoted then tok :: acc else acc)
      else if c = '\'' then shlexRun cs .squote tok quoted acc
      else if c = '"' then shlexRun cs .dquote tok quoted acc
      else if c = '\\' then shlexRun cs .escWord tok quoted acc
      else shlexRun cs .word (tok ++ [c]) quoted acc
  | c :: cs, .squote, tok, _, acc =>
      if c = '\'' then shlexRun cs .word tok true acc
      else shlexRun cs .squote (tok ++ [c]) true acc
  | c :: cs, .dquote, tok, _, acc =>
      if c = '"' then shlexRun cs .word tok true acc
      else if c = '\\' then shlexRun cs .escDquote tok true acc
      else shlexRun cs .dquote (tok ++ [c]) true acc
  | c :: cs, .escWord, tok, quoted, acc =>
      shlexRun cs .word (tok ++ [c]) quoted acc
  | c :: cs, .escDquote, tok, quoted, acc =>
      if c = '\\' ∨ c = '"' then shlexRun cs .dquote (tok ++ [c]) quoted acc
      else shlexRun cs .dquote (tok ++ ['\\', c]) quoted acc

/-- `shlex.split(command)`. -/
def shlex_split (command : String) : Except PyErr (List String) :=
  match shlexRun command.data .ws [] false [] with
  | .ok toks => .ok (toks.map String.mk)
  | .error e => .error e

/-! ## Command registry -/

/-- One registry value: `registry[fn.__name__] = dict(cmd=fn, argnames=..., help=fn.__doc__)`.
A handler is modelled by the list of messages it enqueues through
`Slackish.send` and the exception it raises, if any; `help` is `fn.__doc__`,
which may be `None`. -/
structure CommandEntry where
  cmd : List (String × String) → List String × Option PyErr
  argnames : List String
  help : Option String

/-- `Command.registry`: a Python dict from command name to entry. -/
def Registry := List (String × CommandEntry)

/-- `Command.__init__`: `registry[fn.__name__] = entry` (adds or overwrites,
no uniqueness error). -/
def register (r : Registry) (name : String) (e : CommandEntry) : Registry :=
  dictSet r name e

/-! ## The bot session -/

/-- The `Slackish` singleton's configuration: the command registry, the
configured `BOT_ID` (possibly absent), and the compiled mention pattern,
modelled as its group-extracting search function. -/
structure Bot where
  registry : Registry
  BOT_ID : Option String
  MENTION_REGEX : String → Option (String × String)

/-- A bot with the default `MENTION_REGEX` pattern `^<@(|[WU].+?)>(.*)`. -/
def mkBot (r : Registry) (botId : Option String) : Bot :=
  ⟨r, botId, defaultMentionMatch⟩

/-- An inbound RTM `message` event: `text`, `channel`, and the optional
`subtype` field (present iff `subtype = some _`). -/
structure SlackEvent where
  text : String
  channel : String
  subtype : Option String

/-- `Slackish.parse_direct_mention`: on a match, the first group and the
stripped second group; otherwise `(None, None)`. -/
def parse_direct_mention (bot : Bot) (message_text : String) :
    Option String × Option String :=
  match bot.MENTION_REGEX message_text with
  | some (g1, g2) => (some g1, some (pyStrip g2))
  | none => (none, none)

/-- `Slackish.parse_bot_commands`: events carrying a `subtype` are dropped;
otherwise the mentioned identity is compared with `BOT_ID`. -/
def parse_bot_commands (bot : Bot) (ev : SlackEvent) :
    Option String × Option String :=
  match ev.subtype with
  | none =>
    let p := parse_direct_mention bot ev.text
    if p.1 = bot.BOT_ID then (p.2, some ev.channel) else (none, none)
  | some _ => (none, none)

/-! ## Dispatcher -/

/-- Consecutive pairing done by `zip(it, it)` on one shared iterator. -/
def pairUp : List String → List (String × String)
  | k :: v :: rest => (k, v) :: pairUp rest
  | _ => []

/-- `Slackish.list_to_dict`: `dict(zip(it, it))` — consecutive tokens are
paired key/value and inserted into a dict in order. -/
def list_to_dict (alist : List String) : List (String × String) :=
  (pairUp alist).foldl (fun d kv => dictSet d kv.1 kv.2) []

/-- `Slackish.default_error_message`. -/
def default_error_message : String := "Something went wrong!"

/-- `Slackish.error`: the posted text is `"Error: "` plus the message, or
the default message when the given one is falsy. -/
def errorText (error_message : String) : String :=
  "Error: " ++ (if error_message = "" then default_error_message else error_message)

/-- `Slackish.cmd_help()` with no argument: one post per registry entry,
carrying that entry's `help` text (`fn.__doc__`, possibly `None`). -/
def helpTexts (r : Registry) : List (Option String) :=
  r.map (fun p => p.2.help)

/-- The posts produced by the dispatcher's `except KeyError` branch:
`error("Invalid command!")` followed by `cmd_help()`. -/
def invalidCommandPosts (bot : Bot) : List (Option String) :=
  some (errorText "Invalid command!") :: helpTexts bot.registry

/-- The immediate posts and the enqueued messages produced by one dispatch,
in temporal order. -/
structure Effects where
  posts : List (Option String)
  queued : List String
deriving DecidableEq, Repr

/-- The outcome of `cmd_function(**kwargs)` inside the dispatcher's `try`:
a `KeyError` raised by the handler is caught by the dispatcher's own
`except KeyError` branch; any other exception propagates.  Messages the
handler enqueued before failing stay on the queue. -/
def invokeResult (bot : Bot) : List String × Option PyErr → Effects × Option PyErr
  | (msgs, none) => (⟨[], msgs⟩, none)
  | (msgs, some PyErr.keyError) => (⟨invalidCommandPosts bot, msgs⟩, none)
  | (msgs, some e) => (⟨[], msgs⟩, some e)

/-- `Slackish.command_to_fn_call`: `shlex.split` (whose `ValueError` is not
caught here), `command_words[0]` (an `IndexError` on zero tokens, outside
the `try`), lowercasing of the key, registry lookup (`KeyError` on a miss is
caught, posting the generic error and the help dump), then the handler call
on the paired keyword arguments. -/
def command_to_fn_call (bot : Bot) (command : String) : Effects × Option PyErr :=
  match shlex_split command with
  | Except.error e => (⟨[], []⟩, some e)
  | Except.ok [] => (⟨[], []⟩, some PyErr.indexError)
  | Except.ok (w :: rest) =>
    match dictGet bot.registry (pyLower w) with
    | some entry => invokeResult bot (entry.cmd (list_to_dict rest))
    | none => (⟨invalidCommandPosts bot, []⟩, none)

/-! ## Event handling -/

/-- One outbound transport call `chat_postMessage(channel=..., text=...)`. -/
abbrev Send := Option String × Option String

/-- The fallback text posted by `handle`'s `except Exception` branch. -/
def fallback_message : String := "I'm sorry, I don't understand! "

/-- `Slackish.flush`: post every queued message to the current channel. -/
def flush (channel : Option String) (message_queue : List String) : List Send :=
  message_queue.map (fun m => (channel, some m))

/-- The last two statements of `handle`: `bot.flush(Slackish.message_queue)`
followed by `Slackish.message_queue = []`: the sends, and the queue left
behind. -/
def flush_and_clear (channel : Option String) (message_queue : List String) :
    List Send × List String :=
  (flush channel message_queue, [])

/-- The texts posted around one dispatch: on an uncaught exception from the
dispatcher, `handle`'s `except Exception` adds the fallback message and the
full help dump. -/
def dispatchPosts (bot : Bot) (res : Effects × Option PyErr) : List (Option String) :=
  match res.2 with
  | none => res.1.posts
  | some _ => res.1.posts ++ (some fallback_message :: helpTexts bot.registry)

/-- `Slackish.handle` for one inbound event, given the queue contents left
in `Slackish.message_queue`: a falsy command (no mention, wrong identity,
subtype present, or empty remainder) drops the event; otherwise the command
is dispatched with every exception caught, and the queue is flushed and
cleared.  The `Except` layer records what would escape to the transport:
`handle` never returns `Except.error`. -/
def handle (bot : Bot) (queue0 : List String) (ev : SlackEvent) :
    Except PyErr (List Send × List String) :=
  match parse_bot_commands bot ev with
  | (none, _) => Except.ok ([], queue0)
  | (some command, channel) =>
    if command = "" then Except.ok ([], queue0)
    else
      let res := command_to_fn_call bot command
      let fc := flush_and_clear channel (queue0 ++ res.1.queued)
      Except.ok ((dispatchPosts bot res).map (fun t => (channel, t)) ++ fc.1, fc.2)

/-! ## Identities captured by the default mention pattern -/

/-- Character lists the group `(|[WU].+?)` of the default pattern can
capture in full when followed by `>`: the empty identity, or an identity of
at least two characters starting with `W` or `U` and containing neither `>`
nor a newline. -/
def goodIdChars : List Char → Bool
  | [] => true
  | c :: d :: t => (c = 'W' || c = 'U') && (d :: t).all (fun x => x != '>' && x != '\n')
  | _ => false

/-- Identities the default mention pattern captures in full. -/
def goodMentionId (id : String) : Bool := goodIdChars id.data

/-! ## Concrete fixtures used by witnesses and counterexamples -/

/-- A handler that enqueues `"pong"`. -/
def pingFn : List (String × String) → List String × Option PyErr :=
  fun _ => (["pong"], none)

/-- Registry entry for `pingFn`. -/
def pingEntry : CommandEntry := ⟨pingFn, [], some "ping help"⟩

/-- A bot knowing only the `ping` command, with identity `U1`. -/
def botPing : Bot := mkBot (register [] "ping" pingEntry) (some "U1")

/-- A handler that raises a non-`KeyError` exception. -/
def boomEntry : CommandEntry :=
  ⟨fun _ => ([], some PyErr.otherError), [], some "boom help"⟩

/-- A bot whose only command `boom` raises a non-`KeyError` exception. -/
def botBoom : Bot := mkBot (register [] "boom" boomEntry) (some "U1")

/-- A handler that raises `KeyError`. -/
def keBoomEntry : CommandEntry :=
  ⟨fun _ => ([], some PyErr.keyError), [], some "boom help"⟩

/-- A bot whose only command `boom` raises `KeyError`. -/
def botKeBoom : Bot := mkBot (register [] "boom" keBoomEntry) (some "U1")

/-- An event addressing the bot `U1` with the command line `boom`. -/
def evBoom : SlackEvent := ⟨"<@U1> boom", "C1", none⟩

/-- A handler that enqueues one `key=value` message per keyword argument it
receives, making the received arguments observable. -/
def kwEcho : List (String × String) → List String × Option PyErr :=
  fun kwargs => (kwargs.map (fun p => p.1 ++ "=" ++ p.2), none)

/-- A bot whose only command is `setname`, with the given handler. -/
def setnameBot (f : List (String × String) → List String × Option PyErr) : Bot :=
  mkBot (register [] "setname" ⟨f, [], none⟩) none

/-! ## Helper lemmas -/

/-- Writing a key into a dict makes it readable back. -/
theorem dictGet_dictSet {α : Type} (r : List (String × α)) (k : String) (v : α) :
    dictGet (dictSet r k v) k = some v := by
  induction r with
  | nil => simp [dictSet, dictGet]
  | cons p rest ih =>
    by_cases h : p.1 = k
    · simp [dictSet, dictGet, h]
    · simp [dictSet, dictGet, h, ih]

/-- `zip(it, it)` pairing ignores a final unpaired element. -/
theorem pairUp_drop_last :
    ∀ (l : List String) (a : String), l.length % 2 = 0 → pairUp (l ++ [a]) = pairUp l
  | [], _, _ => rfl
  | [x], _, h => by simp at h
  | x :: y :: rest, a, h => by
    have h2 : rest.length % 2 = 0 := by
      simp [List.length_cons, Nat.add_mod] at h
      omega
    show (x, y) :: pairUp (rest ++ [a]) = (x, y) :: pairUp rest
    rw [pairUp_drop_last rest a h2]

/-- A dispatch whose key resolves reduces to the handler invocation on the
paired keyword arguments. -/
theorem command_to_fn_call_resolved (bot : Bot) (command w : String)
    (rest : List String) (entry : CommandEntry)
    (hsplit : shlex_split command = Except.ok (w :: rest))
    (hget : dictGet bot.registry (pyLower w) = some entry) :
    command_to_fn_call bot command = invokeResult bot (entry.cmd (list_to_dict rest)) := by
  unfold command_to_fn_call
  rw [hsplit]
  simp only [hget]

/-- A non-`KeyError` exception passes through `invokeResult` untouched. -/
theorem invokeResult_not_keyError (bot : Bot) (msgs : List String) (e : PyErr)
    (he : e ≠ PyErr.keyError) :
    invokeResult bot (msgs, some e) = (⟨[], msgs⟩, some e) := by
  cases e with
  | keyError => exact absurd rfl he
  | indexError => rfl
  | valueError => rfl
  | otherError => rfl

/-! ## Claims -/

/-- C2: for every command line whose first (lowercased) token is not a key
in the registry, dispatch produces exactly one error post (the generic
error message) followed by exactly one help post per registered command,
enqueues nothing (so no handler contributes anything), and raises no
exception (the failure is not fatal). -/
theorem invalid_command_posts (bot : Bot) (command w : String) (rest : List String)
    (hsplit : shlex_split command = Except.ok (w :: rest))
    (hmiss : dictGet bot.registry (pyLower w) = none) :
    command_to_fn_call bot command =
      (⟨some (errorText "Invalid command!") :: helpTexts bot.registry, []⟩, none) ∧
    (helpTexts bot.registry).length = bot.registry.length := by
  constructor
  · unfold command_to_fn_call
    rw [hsplit]
    simp only [hmiss, invalidCommandPosts]
  · simp [helpTexts]

/-- Witness for C2: `frobnicate` against the one-command bot `botPing`. -/
theorem invalid_command_posts_witness :
    command_to_fn_call botPing "frobnicate" =
      (⟨some (errorText "Invalid command!") :: helpTexts botPing.registry, []⟩, none) ∧
    (helpTexts botPing.registry).length = botPing.registry.length :=
  invalid_command_posts botPing "frobnicate" "frobnicate" [] rfl rfl

/-- C3 (counterexample): dispatching `setname Alice extra` invokes the
handler with the keyword arguments `Alice = "extra"` — observable because
`kwEcho` enqueues one `key=value` message per received argument — and not
with `setname = "Alice"` as the claim predicts. -/
theorem setname_kwargs_example :
    command_to_fn_call (setnameBot kwEcho) "setname Alice extra" =
      (⟨[], ["Alice=extra"]⟩, none) ∧
    ("Alice=extra" : String) ≠ "setname=Alice" := by
  exact ⟨rfl, by decide⟩

/-- C3 (amended): the tokens after the command key are paired consecutively
into keyword arguments (token 0 a key, token 1 its value, and so on), an odd
final token is silently dropped, and dispatching `setname Alice extra`
invokes the handler with exactly the pair `Alice = "extra"` (the two
remaining tokens pair up; nothing is dropped there). -/
theorem kwargs_pairing :
    (∀ (bot : Bot) (command w : String) (rest : List String) (entry : CommandEntry),
        shlex_split command = Except.ok (w :: rest) →
        dictGet bot.registry (pyLower w) = some entry →
        command_to_fn_call bot command = invokeResult bot (entry.cmd (list_to_dict rest))) ∧
    (∀ (a b : String) (l : List String), pairUp (a :: b :: l) = (a, b) :: pairUp l) ∧
    (∀ (l : List String) (a : String), l.length % 2 = 0 →
        list_to_dict (l ++ [a]) = list_to_dict l) ∧
    (∀ f, command_to_fn_call (setnameBot f) "setname Alice extra" =
        invokeResult (setnameBot f) (f [("Alice", "extra")])) := by
  refine ⟨command_to_fn_call_resolved, fun a b l => rfl, ?_, fun f => rfl⟩
  intro l a h
  unfold list_to_dict
  rw [pairUp_drop_last l a h]

/-- Witness for C3: the resolved-dispatch conjunct at the concrete bot
`botPing` and command line `ping`. -/
theorem kwargs_pairing_witness :
    command_to_fn_call botPing "ping" =
      invokeResult botPing (pingEntry.cmd (list_to_dict [])) :=
  kwargs_pairing.1 botPing "ping" "ping" [] pingEntry rfl rfl

/-- C5: a command line that tokenizes to zero tokens makes the dispatcher
fail with an index fault (`command_words[0]` sits before the `try`, whose
`except` clause only catches `KeyError`), producing no posts and no queue
entries: the exception escapes the dispatcher. -/
theorem empty_command_index_fault (bot : Bot) (command : String)
    (hsplit : shlex_split command = Except.ok []) :
    command_to_fn_call bot command = (⟨[], []⟩, some PyErr.indexError) := by
  unfold command_to_fn_call
  rw [hsplit]

/-- Witness for C5: the empty command line tokenizes to zero tokens. -/
theorem empty_command_index_fault_witness :
    command_to_fn_call (mkBot [] none) "" = (⟨[], []⟩, some PyErr.indexError) :=
  empty_command_index_fault (mkBot [] none) "" rfl

/-- C9 (counterexample): registering under the name `Ping` and looking it
up by its lowercased name — as the dispatcher does — finds nothing, because
registration stores `fn.__name__` unmodified while only the incoming key is
lowercased. -/
theorem register_case_mismatch :
    dictGet (register [] "Ping" pingEntry) (pyLower "Ping") = none ∧
    (none : Option CommandEntry) ≠ some pingEntry :=
  ⟨rfl, nofun⟩

/-- C9 (amended): looking a registered command up by its exact registered
name returns the exact descriptor registered, and lookup by the lowercased
name returns it whenever the registered name is already lowercase (the
source lowercases only the incoming key, not registered keys); registering
the same name twice raises no uniqueness error — the second registration
simply overwrites the first, and lookup returns the last descriptor. -/
theorem register_lookup_roundtrip (r : Registry) (name : String) (e e' : CommandEntry) :
    dictGet (register r name e) name = some e ∧
    (pyLower name = name → dictGet (register r name e) (pyLower name) = some e) ∧
    dictGet (register (register r name e') name e) name = some e := by
  refine ⟨dictGet_dictSet r name e, ?_, dictGet_dictSet _ name e⟩
  intro hlow
  rw [hlow]
  exact dictGet_dictSet r name e

/-- Witness for C9: register `ping` (already lowercase) and look it up by
its lowercased name. -/
theorem register_lookup_roundtrip_witness :
    dictGet (register [] "ping" pingEntry) (pyLower "ping") = some pingEntry :=
  (register_lookup_roundtrip [] "ping" pingEntry pingEntry).2.1 rfl

/-- The lazy `.+?>` step captures exactly a non-empty run free of `>` and
newlines when a `>` follows it. -/
theorem lazyDotPlus_all (m : List Char) (hall : ∀ x ∈ m, x ≠ '>' ∧ x ≠ '\n')
    (hne : m ≠ []) (r : List Char) :
    lazyDotPlus (m ++ '>' :: r) = some (m, r) := by
  induction m with
  | nil => exact absurd rfl hne
  | cons x xs ih =>
    cases xs with
    | nil =>
      have hx := hall x (by simp)
      simp [lazyDotPlus, hx.2]
    | cons y t =>
      have hx := hall x (by simp)
      have hy := hall y (by simp)
      have ih2 := ih (fun z hz => hall z (by simp [hz])) (by simp)
      simp only [List.cons_append] at ih2 ⊢
      rw [show lazyDotPlus (x :: (y :: (t ++ '>' :: r)))
            = if x = '\n' then none
              else if y = '>' then some ([x], t ++ '>' :: r)
              else
                match lazyDotPlus (y :: (t ++ '>' :: r)) with
                | some (mid, tail) => some (x :: mid, tail)
                | none => none from rfl,
          if_neg hx.2, if_neg hy.1, ih2]

/-- The default pattern captures a full good identity followed by `>`, with
the second group taking the rest of the line. -/
theorem mentionMatchList_good (l : List Char) (h : goodIdChars l = true) (r : List Char) :
    mentionMatchList ('<' :: '@' :: (l ++ '>' :: r)) = some (l, dotStar r) := by
  cases l with
  | nil => simp [mentionMatchList]
  | cons c cs =>
    cases cs with
    | nil => simp [goodIdChars] at h
    | cons d t =>
      simp only [goodIdChars, Bool.and_eq_true, Bool.or_eq_true, decide_eq_true_eq,
        List.all_eq_true, Bool.and_eq_true, bne_iff_ne] at h
      obtain ⟨hc, hall⟩ := h
      have hcne : c ≠ '>' := by
        rcases hc with h1 | h1 <;> subst h1 <;> decide
      have hlz : lazyDotPlus ((d :: t) ++ '>' :: r) = some (d :: t, r) :=
        lazyDotPlus_all (d :: t) hall (by simp) r
      simp only [List.cons_append] at hlz ⊢
      simp [mentionMatchList, hcne, hc, hlz]

/-- C10: the default mention pattern accepts the empty identity — on
`<@> text` the parser returns the empty identity and the trimmed remainder
rather than `(None, None)` — as well as Slack-style identities beginning
with `W` or `U`. -/
theorem empty_mention_id_matches :
    parse_direct_mention (mkBot [] none) "<@> text" = (some "", some "text") ∧
    parse_direct_mention (mkBot [] none) "<@U123> hi" = (some "U123", some "hi") :=
  ⟨rfl, rfl⟩

/-- C7: `parse_direct_mention` returns `(None, None)` exactly when the
configured mention pattern does not match the text; on a match it returns
the first capture group and the whitespace-stripped second group. -/
theorem parse_direct_mention_spec (bot : Bot) (text : String) :
    (parse_direct_mention bot text = (none, none) ↔ bot.MENTION_REGEX text = none) ∧
    (∀ (g1 g2 : String), bot.MENTION_REGEX text = some (g1, g2) →
        parse_direct_mention bot text = (some g1, some (pyStrip g2))) := by
  constructor
  · constructor
    · intro h
      cases hm : bot.MENTION_REGEX text with
      | none => rfl
      | some p =>
        obtain ⟨g1, g2⟩ := p
        unfold parse_direct_mention at h
        rw [hm] at h
        simp at h
    · intro h
      unfold parse_direct_mention
      rw [h]
  · intro g1 g2 h
    unfold parse_direct_mention
    rw [h]

/-- Witness for C7: a matching text under the default pattern. -/
theorem parse_direct_mention_spec_witness :
    parse_direct_mention (mkBot [] none) "<@U9X> hi" = (some "U9X", some "hi") :=
  (parse_direct_mention_spec (mkBot [] none) "<@U9X> hi").2 "U9X" " hi" rfl

/-- C6: an event carrying a `subtype` field is discarded:
`parse_bot_commands` returns `(None, None)`, and `handle` performs no sends
and leaves the queue untouched. -/
theorem subtype_event_ignored (bot : Bot) (queue0 : List String) (ev : SlackEvent)
    (h : ev.subtype.isSome = true) :
    parse_bot_commands bot ev = (none, none) ∧
    handle bot queue0 ev = Except.ok ([], queue0) := by
  obtain ⟨s, hs⟩ := Option.isSome_iff_exists.mp h
  have hp : parse_bot_commands bot ev = (none, none) := by
    unfold parse_bot_commands
    rw [hs]
  refine ⟨hp, ?_⟩
  unfold handle
  rw [hp]

/-- Witness for C6: a `channel_join`-style event. -/
theorem subtype_event_ignored_witness :
    parse_bot_commands (mkBot [] none) ⟨"hi", "C1", some "channel_join"⟩ = (none, none) ∧
    handle (mkBot [] none) [] ⟨"hi", "C1", some "channel_join"⟩ = Except.ok ([], []) :=
  subtype_event_ignored (mkBot [] none) [] ⟨"hi", "C1", some "channel_join"⟩ rfl

/-- C4: the flush step of `handle` (flush, then reset the class queue)
always leaves the outbound queue empty; flushing an empty queue performs
zero sends; and after any `handle` run the queue is either empty (flush
executed) or untouched with no sends at all (event discarded, flush never
reached). -/
theorem flush_empties_queue :
    (∀ (channel : Option String) (q : List String), (flush_and_clear channel q).2 = []) ∧
    (∀ (channel : Option String) (q : List String), q = [] →
        flush_and_clear channel q = ([], [])) ∧
    (∀ (bot : Bot) (queue0 : List String) (ev : SlackEvent) (sends : List Send)
        (queue1 : List String), handle bot queue0 ev = Except.ok (sends, queue1) →
        queue1 = [] ∨ (sends = [] ∧ queue1 = queue0)) := by
  refine ⟨fun _ _ => rfl, ?_, ?_⟩
  · intro channel q hq
    subst hq
    rfl
  · intro bot queue0 ev sends queue1 h
    unfold handle at h
    cases hp : parse_bot_commands bot ev with
    | mk c ch =>
      rw [hp] at h
      cases c with
      | none =>
        simp only [Except.ok.injEq, Prod.mk.injEq] at h
        right
        exact ⟨h.1.symm, h.2.symm⟩
      | some cmd =>
        by_cases hc : cmd = ""
        · simp only [if_pos hc, Except.ok.injEq, Prod.mk.injEq] at h
          right
          exact ⟨h.1.symm, h.2.symm⟩
        · simp only [if_neg hc, flush_and_clear, Except.ok.injEq, Prod.mk.injEq] at h
          left
          exact h.2.symm

/-- Witness for C4: flushing the empty queue. -/
theorem flush_empties_queue_witness :
    flush_and_clear (some "C1") [] = ([], []) :=
  flush_empties_queue.2.1 (some "C1") [] rfl

/-- C1 (counterexample): a handler that raises `KeyError` is caught by the
dispatcher's own `except KeyError` branch — not at the top of event
processing — and the user sees the generic invalid-command error plus help,
not the fallback message the claim predicts. -/
theorem handler_keyError_caught_in_dispatcher :
    command_to_fn_call botKeBoom "boom" = (⟨invalidCommandPosts botKeBoom, []⟩, none) ∧
    handle botKeBoom [] evBoom =
      Except.ok ([(some "C1", some (errorText "Invalid command!")),
                  (some "C1", some "boom help")], []) ∧
    errorText "Invalid command!" ≠ fallback_message :=
  ⟨rfl, rfl, by decide⟩

/-- C1 (amended): when the invoked handler raises any error other than
`KeyError`, the error escapes the dispatcher and is caught at the top of
event processing in the session's event handler; the user-visible effect is
the fixed fallback message followed by a full help dump (and the flush of
whatever was enqueued), and no error is propagated to the transport. -/
theorem handler_failure_fallback (bot : Bot) (queue0 : List String) (ev : SlackEvent)
    (command : String) (channel : Option String) (w : String) (rest : List String)
    (entry : CommandEntry) (msgs : List String) (e : PyErr)
    (hparse : parse_bot_commands bot ev = (some command, channel))
    (hne : command ≠ "")
    (hsplit : shlex_split command = Except.ok (w :: rest))
    (hget : dictGet bot.registry (pyLower w) = some entry)
    (hrun : entry.cmd (list_to_dict rest) = (msgs, some e))
    (hke : e ≠ PyErr.keyError) :
    handle bot queue0 ev =
      Except.ok ((some fallback_message :: helpTexts bot.registry).map (fun t => (channel, t))
                  ++ flush channel (queue0 ++ msgs), []) := by
  have hcmd : command_to_fn_call bot command = (⟨[], msgs⟩, some e) := by
    rw [command_to_fn_call_resolved bot command w rest entry hsplit hget, hrun]
    exact invokeResult_not_keyError bot msgs e hke
  unfold handle
  rw [hparse]
  simp [if_neg hne, hcmd, dispatchPosts, flush_and_clear]

/-- Witness for C1: the `boom` handler raising a non-`KeyError` exception. -/
theorem handler_failure_fallback_witness :
    handle botBoom [] evBoom =
      Except.ok ((some fallback_message :: helpTexts botBoom.registry).map
                    (fun t => ((some "C1" : Option String), t))
                  ++ flush (some "C1") ([] ++ []), []) :=
  handler_failure_fallback botBoom [] evBoom "boom" (some "C1") "boom" [] boomEntry []
    PyErr.otherError rfl (by decide) rfl rfl rfl (by decide)

/-- C8 (counterexample): with the configured identity `X1`, the text
`<@X1> foo bar` is not matched by the default pattern (identities must be
empty or start with `W`/`U`), so `parse_bot_commands` returns `(None, None)`
instead of the command and channel the claim predicts. -/
theorem bot_mention_unmatched_id :
    parse_bot_commands (mkBot [] (some "X1")) ⟨"<@X1> foo bar", "C1", none⟩ = (none, none) ∧
    ((none, none) : Option String × Option String) ≠ (some "foo bar", some "C1") :=
  ⟨rfl, by decide⟩

/-- C8 (amended): for a configured identity that the default mention
pattern can capture (the empty identity, or one of length at least two
starting with `W` or `U` and containing neither `>` nor a newline), a
subtype-free event `<@BOTID> foo bar` yields `("foo bar", channel)`; and
whenever the mentioned identity differs from the configured one, the result
is `(None, None)`. -/
theorem parse_bot_commands_mention (bot : Bot)
    (hre : bot.MENTION_REGEX = defaultMentionMatch) :
    (∀ (id c : String), bot.BOT_ID = some id → goodMentionId id = true →
        parse_bot_commands bot ⟨"<@" ++ id ++ "> foo bar", c, none⟩ =
          (some "foo bar", some c)) ∧
    (∀ (ev : SlackEvent) (u id : String) (m : Option String),
        ev.subtype = none →
        parse_direct_mention bot ev.text = (some u, m) →
        bot.BOT_ID = some id → u ≠ id →
        parse_bot_commands bot ev = (none, none)) := by
  constructor
  · intro id c hid hgood
    have hdata : ("<@" ++ id ++ "> foo bar").data
        = '<' :: '@' :: (id.data ++ '>' :: (" foo bar".data)) := rfl
    have hm : mentionMatchList ("<@" ++ id ++ "> foo bar").data
        = some (id.data, dotStar (" foo bar".data)) := by
      rw [hdata]
      exact mentionMatchList_good id.data hgood (" foo bar".data)
    have hdm : defaultMentionMatch ("<@" ++ id ++ "> foo bar") = some (id, " foo bar") := by
      unfold defaultMentionMatch
      rw [hm]
      rfl
    have hpd : parse_direct_mention bot ("<@" ++ id ++ "> foo bar")
        = (some id, some "foo bar") := by
      unfold parse_direct_mention
      rw [hre, hdm]
      rfl
    unfold parse_bot_commands
    simp [hpd, hid]
  · intro ev u id m hsub hpm hid hne
    unfold parse_bot_commands
    rw [hsub]
    simp [hpm, hid, hne]

/-- Witness for C8: identity `U42`, channel `KA`. -/
theorem parse_bot_commands_mention_witness :
    parse_bot_commands (mkBot [] (some "U42")) ⟨"<@" ++ "U42" ++ "> foo bar", "KA", none⟩ =
      (some "foo bar", some "KA") :=
  (parse_bot_commands_mention (mkBot [] (some "U42")) rfl).1 "U42" "KA" rfl rfl

end Slackish
